import Mathlib

/-!
Shallow embedding of `homework.py`: a fitness-tracker module that computes
distance, mean speed and spent calories for three workout types (running,
sports walking, swimming) and renders a one-line report.

Python floats are modelled by `ℚ`; Python's `/` on a possibly-zero divisor
is modelled by `pyDiv` (raising `ZeroDivisionError` as an `Except.error`),
`//` on floats by `pyFloorDiv` (floor of the true quotient), and
`raise NotImplementedError` by an `Except.error "NotImplementedError"`.
The class hierarchy `Training` / `Running` / `SportsWalking` / `Swimming`
becomes an inductive type with a constructor per class (including the
instantiable base class); dynamic dispatch becomes a `match`.
-/

/-- Python `a / b` on numbers: raises `ZeroDivisionError` when `b = 0`. -/
def pyDiv (a b : ℚ) : Except String ℚ :=
  if b = 0 then .error "ZeroDivisionError" else .ok (a / b)

/-- Python `a // b` on floats: floor of the true quotient, raises
`ZeroDivisionError` when `b = 0`. -/
def pyFloorDiv (a b : ℚ) : Except String ℚ :=
  if b = 0 then .error "ZeroDivisionError" else .ok ((⌊a / b⌋ : ℤ) : ℚ)

/-- The fields shared by every `Training` instance
(`self.action`, `self.duration`, `self.weight`). -/
structure TrainingData where
  action : ℚ
  duration : ℚ
  weight : ℚ
deriving DecidableEq

/-- The `Training` class hierarchy: the instantiable base class plus the
three concrete subclasses, each with its extra constructor parameters. -/
inductive Training where
  | base (d : TrainingData)
  | running (d : TrainingData)
  | sportsWalking (d : TrainingData) (height : ℚ)
  | swimming (d : TrainingData) (length_pool count_pool : ℚ)
deriving DecidableEq

/-- The shared data record of any instance. -/
def Training.data : Training → TrainingData
  | .base d | .running d | .sportsWalking d _ | .swimming d _ _ => d

/-- `self.action`. -/
def Training.action (t : Training) : ℚ := t.data.action

/-- `self.duration`. -/
def Training.duration (t : Training) : ℚ := t.data.duration

/-- `self.weight`. -/
def Training.weight (t : Training) : ℚ := t.data.weight

/-- `LEN_STEP`: class attribute `0.65`, overridden to `1.38` in `Swimming`. -/
def Training.lenStep : Training → ℚ
  | .swimming _ _ _ => 1.38
  | _ => 0.65

/-- `M_IN_KM = 1000`. -/
def M_IN_KM : ℚ := 1000

/-- `MIN_IN_HOUR = 60`. -/
def MIN_IN_HOUR : ℚ := 60

/-- `Training.get_distance`: `self.action * self.LEN_STEP / self.M_IN_KM`.
The divisor is the nonzero constant `1000`, so this is a total function. -/
def Training.get_distance (t : Training) : ℚ :=
  t.action * t.lenStep / M_IN_KM

/-- `get_mean_speed`: the base class computes
`self.get_distance() / self.duration`; `Swimming` overrides it with
`(self.length_pool * self.count_pool / self.M_IN_KM) / self.duration`. -/
def Training.get_mean_speed (t : Training) : Except String ℚ :=
  match t with
  | .swimming d length_pool count_pool =>
      pyDiv (length_pool * count_pool / M_IN_KM) d.duration
  | _ => pyDiv t.get_distance t.duration

/-- `get_spent_calories`: `raise NotImplementedError` in the base class;
each concrete subclass supplies its own formula. -/
def Training.get_spent_calories (t : Training) : Except String ℚ :=
  match t with
  | .base _ => .error "NotImplementedError"
  | .running d => do
      let speed ← Training.get_mean_speed (.running d)
      let pace := (18 * speed - 20) * d.weight
      let pace_in_km := pace / M_IN_KM
      let pace_in_min := d.duration * MIN_IN_HOUR
      .ok (pace_in_km * pace_in_min)
  | .sportsWalking d height => do
      let speed ← Training.get_mean_speed (.sportsWalking d height)
      let floored ← pyFloorDiv (speed ^ 2) height
      let pace := 0.035 * d.weight + floored * 0.029 * d.weight
      let pace_in_min := d.duration * MIN_IN_HOUR
      .ok (pace * pace_in_min)
  | .swimming d length_pool count_pool => do
      let speed ← Training.get_mean_speed (.swimming d length_pool count_pool)
      .ok ((speed + 1.1) * 2 * d.weight)

/-- `self.__class__.__name__`, the label put in the report. -/
def Training.className : Training → String
  | .base _ => "Training"
  | .running _ => "Running"
  | .sportsWalking _ _ => "SportsWalking"
  | .swimming _ _ _ => "Swimming"

/-- The `InfoMessage` dataclass. -/
structure InfoMessage where
  training_type : String
  duration : ℚ
  distance : ℚ
  speed : ℚ
  calories : ℚ
deriving DecidableEq

/-- Round-half-to-even of a rational to an integer, the rounding used by
Python's fixed-point float formatting. -/
def roundHalfEven (q : ℚ) : ℤ :=
  if q - ⌊q⌋ < 1 / 2 then ⌊q⌋
  else if q - ⌊q⌋ > 1 / 2 then ⌊q⌋ + 1
  else if ⌊q⌋ % 2 = 0 then ⌊q⌋ else ⌊q⌋ + 1

/-- The three decimal digits of `n % 1000`, zero-padded to width 3. -/
def threeDigits (n : ℕ) : String :=
  String.mk [Nat.digitChar (n / 100 % 10), Nat.digitChar (n / 10 % 10),
    Nat.digitChar (n % 10)]

/-- Python `format(q, ".3f")` on the rational model: the value rounded to
three decimal places, rendered with exactly three digits after the point. -/
def formatFixed3 (q : ℚ) : String :=
  let n := roundHalfEven (q * 1000)
  let sign := if n < 0 then "-" else ""
  let m := n.natAbs
  sign ++ toString (m / 1000) ++ "." ++ threeDigits (m % 1000)

/-- `InfoMessage.get_message`: the `MESSAGE` template with the five fields
substituted, each number formatted with `:.3f`. -/
def InfoMessage.get_message (m : InfoMessage) : String :=
  "Тип тренировки: " ++ m.training_type ++
  "; Длительность: " ++ formatFixed3 m.duration ++
  " ч.; Дистанция: " ++ formatFixed3 m.distance ++
  " км; Ср. скорость: " ++ formatFixed3 m.speed ++
  " км/ч; Потрачено ккал: " ++ formatFixed3 m.calories ++ "."

/-- `Training.show_training_info`: builds the `InfoMessage` from the class
name, the stored duration and the three computed quantities; any exception
raised by `get_mean_speed` or `get_spent_calories` propagates. -/
def Training.show_training_info (t : Training) : Except String InfoMessage := do
  let speed ← t.get_mean_speed
  let calories ← t.get_spent_calories
  .ok ⟨t.className, t.duration, t.get_distance, speed, calories⟩

/-- `read_package`: dictionary dispatch on the workout-type code
(`'SWM'`, `'RUN'`, `'WLK'`); an unknown code raises a `ValueError` whose
message lists the valid codes; a wrong argument count raises a `TypeError`
from the positional-unpacking call of the constructor. -/
def read_package (workout_type : String) (data : List ℚ) : Except String Training :=
  if workout_type = "SWM" then
    match data with
    | [action, duration, weight, length_pool, count_pool] =>
        .ok (.swimming ⟨action, duration, weight⟩ length_pool count_pool)
    | _ => .error "TypeError"
  else if workout_type = "RUN" then
    match data with
    | [action, duration, weight] => .ok (.running ⟨action, duration, weight⟩)
    | _ => .error "TypeError"
  else if workout_type = "WLK" then
    match data with
    | [action, duration, weight, height] =>
        .ok (.sportsWalking ⟨action, duration, weight⟩ height)
    | _ => .error "TypeError"
  else
    .error (workout_type ++
      " is not a supported workout type (try one of these: SWM, RUN, WLK)")

/-- The per-record pipeline of `__main__` and `main`: construct the
training from the package and render its report line. -/
def runReport (workout_type : String) (data : List ℚ) : Except String String := do
  let training ← read_package workout_type data
  let info ← training.show_training_info
  .ok info.get_message

/-- A string of the shape `⟨integer part⟩.⟨exactly three decimal digits⟩`. -/
def threeDecimalDigits (s : String) : Prop :=
  ∃ ip fp : String, s = ip ++ "." ++ fp ∧ fp.length = 3 ∧
    ∀ c ∈ fp.data, c.isDigit

deriving instance DecidableEq for Except

/-- Every digit character produced from a residue mod 10 is a decimal digit. -/
theorem digitChar_mod_ten_isDigit (k : ℕ) : (Nat.digitChar (k % 10)).isDigit = true := by
  have h : k % 10 < 10 := Nat.mod_lt _ (by norm_num)
  revert h
  revert k
  exact fun k => (by decide : ∀ d < 10, (Nat.digitChar d).isDigit = true) (k % 10)

/-- `formatFixed3` always renders exactly three digits after the point. -/
theorem formatFixed3_threeDecimalDigits (q : ℚ) :
    threeDecimalDigits (formatFixed3 q) := by
  refine ⟨(if roundHalfEven (q * 1000) < 0 then "-" else "") ++
      toString ((roundHalfEven (q * 1000)).natAbs / 1000),
    threeDigits ((roundHalfEven (q * 1000)).natAbs % 1000), rfl, rfl, ?_⟩
  intro c hc
  simp [threeDigits] at hc
  rcases hc with h | h | h
  · rw [h]; exact digitChar_mod_ten_isDigit _
  · rw [h]; exact digitChar_mod_ten_isDigit _
  · rw [h]; exact digitChar_mod_ten_isDigit _

/-- C1: for every `Running` activity with positive duration,
`get_spent_calories` returns exactly
`((18 * mean_speed - 20) * weight / 1000) * (duration * 60)` with
`mean_speed = action * 0.65 / 1000 / duration`. -/
theorem running_get_spent_calories_formula (a d w : ℚ) (hd : 0 < d) :
    Training.get_spent_calories (.running ⟨a, d, w⟩) =
      .ok (((18 * (a * 0.65 / 1000 / d) - 20) * w / 1000) * (d * 60)) := by
  simp [Training.get_spent_calories, Training.get_mean_speed, Training.get_distance,
    Training.action, Training.duration, Training.weight, Training.data,
    Training.lenStep, pyDiv, M_IN_KM, MIN_IN_HOUR, hd.ne', bind, Except.bind]

/-- Witness for C1: the formula at the concrete input `(15000, 1, 75)`. -/
theorem running_get_spent_calories_formula_witness :
    Training.get_spent_calories (.running ⟨15000, 1, 75⟩) =
      .ok (((18 * (15000 * 0.65 / 1000 / 1) - 20) * 75 / 1000) * (1 * 60)) :=
  running_get_spent_calories_formula 15000 1 75 (by norm_num)

/-- C2: for every `SportsWalking` activity with positive duration and height,
`get_spent_calories` equals
`(0.035 * weight + floor(mean_speed ^ 2 / height) * 0.029 * weight) * (duration * 60)`,
with the middle term the floor of the quotient of squared speed by height. -/
theorem sportsWalking_get_spent_calories_floor_formula (a d w h : ℚ)
    (hd : 0 < d) (hh : 0 < h) :
    Training.get_spent_calories (.sportsWalking ⟨a, d, w⟩ h) =
      .ok ((0.035 * w + ((⌊(a * 0.65 / 1000 / d) ^ 2 / h⌋ : ℤ) : ℚ) * 0.029 * w)
        * (d * 60)) := by
  simp [Training.get_spent_calories, Training.get_mean_speed, Training.get_distance,
    Training.action, Training.duration, Training.weight, Training.data,
    Training.lenStep, pyDiv, pyFloorDiv, M_IN_KM, MIN_IN_HOUR, hd.ne', hh.ne',
    bind, Except.bind]

/-- Witness for C2: the formula at the concrete input `(9000, 1, 75, 180)`,
where `mean_speed ^ 2 / height = 5.85 ^ 2 / 180` is non-integral and floors
to `0`. -/
theorem sportsWalking_get_spent_calories_floor_formula_witness :
    Training.get_spent_calories (.sportsWalking ⟨9000, 1, 75⟩ 180) =
      .ok ((0.035 * 75 + ((⌊((9000 : ℚ) * 0.65 / 1000 / 1) ^ 2 / 180⌋ : ℤ) : ℚ)
        * 0.029 * 75) * (1 * 60)) :=
  sportsWalking_get_spent_calories_floor_formula 9000 1 75 180 (by norm_num)
    (by norm_num)

/-- C3: for every `Swimming` activity with positive duration,
`get_mean_speed` returns `(length_pool * count_pool / 1000) / duration`, and
the result is invariant under a change of `action` (and of `weight`). -/
theorem swimming_get_mean_speed_pool_only (a a2 d w w2 lp cp : ℚ) (hd : 0 < d) :
    Training.get_mean_speed (.swimming ⟨a, d, w⟩ lp cp) =
      .ok (lp * cp / 1000 / d) ∧
    Training.get_mean_speed (.swimming ⟨a, d, w⟩ lp cp) =
      Training.get_mean_speed (.swimming ⟨a2, d, w2⟩ lp cp) := by
  constructor
  · simp [Training.get_mean_speed, pyDiv, M_IN_KM, hd.ne']
  · rfl

/-- Witness for C3: the pool-based speed at `(720, 1, 80, 25, 40)`, invariant
when `action` changes from `720` to `725`. -/
theorem swimming_get_mean_speed_pool_only_witness :
    Training.get_mean_speed (.swimming ⟨720, 1, 80⟩ 25 40) =
      .ok (25 * 40 / 1000 / 1) ∧
    Training.get_mean_speed (.swimming ⟨720, 1, 80⟩ 25 40) =
      Training.get_mean_speed (.swimming ⟨725, 1, 80⟩ 25 40) :=
  swimming_get_mean_speed_pool_only 720 725 1 80 80 25 40 (by norm_num)

/-- C4 counterexample: on `RUN [15000, 1, 75]` the rendered line is not the
claimed one: the code yields `699.750` kcal, not `581.250`. -/
theorem run_example_claimed_line_false :
    runReport "RUN" [15000, 1, 75] ≠
      .ok ("Тип тренировки: Running; Длительность: 1.000 ч.; " ++
        "Дистанция: 9.750 км; Ср. скорость: 9.750 км/ч; " ++
        "Потрачено ккал: 581.250.") := by
  with_unfolding_all decide

/-- C4 (amended): on `RUN [15000, 1, 75]` the rendered report line is exactly
the claimed one with calories `699.750` in place of `581.250`: distance and
speed are `9.750` and calories are
`((18 * 9.75 - 20) * 75 / 1000) * 60 = 699.75`. -/
theorem run_example_report_line :
    runReport "RUN" [15000, 1, 75] =
      .ok ("Тип тренировки: Running; Длительность: 1.000 ч.; " ++
        "Дистанция: 9.750 км; Ср. скорость: 9.750 км/ч; " ++
        "Потрачено ккал: 699.750.") := by
  with_unfolding_all rfl

/-- C5 counterexample: on `SWM [720, 1, 80, 25, 40]` the reported distance
is not `0.468` km: `Swimming` overrides `LEN_STEP` to `1.38`, giving
`720 * 1.38 / 1000 = 0.9936` km. -/
theorem swm_example_claimed_distance_false :
    (Training.show_training_info (.swimming ⟨720, 1, 80⟩ 25 40)).map
      InfoMessage.distance ≠ Except.ok (0.468 : ℚ) := by
  with_unfolding_all decide

/-- C5 (amended): on `SWM [720, 1, 80, 25, 40]` the reported metrics are
distance `0.9936` km (rendered `0.994`), speed `1.000` km/h, calories
`336.000` kcal and duration `1.000` h. -/
theorem swm_example_metrics :
    Training.show_training_info (.swimming ⟨720, 1, 80⟩ 25 40) =
      .ok ⟨"Swimming", 1, 0.9936, 1, 336⟩ := by
  with_unfolding_all rfl

/-- C6: `get_message` renders one line with the activity label and the four
numbers in the fixed order type, duration, distance, speed, calories, with
the fixed surrounding text and units, each number carrying exactly three
digits after the decimal point. -/
theorem get_message_format (m : InfoMessage) :
    m.get_message =
      "Тип тренировки: " ++ m.training_type ++
        "; Длительность: " ++ formatFixed3 m.duration ++
        " ч.; Дистанция: " ++ formatFixed3 m.distance ++
        " км; Ср. скорость: " ++ formatFixed3 m.speed ++
        " км/ч; Потрачено ккал: " ++ formatFixed3 m.calories ++ "." ∧
    threeDecimalDigits (formatFixed3 m.duration) ∧
    threeDecimalDigits (formatFixed3 m.distance) ∧
    threeDecimalDigits (formatFixed3 m.speed) ∧
    threeDecimalDigits (formatFixed3 m.calories) :=
  ⟨rfl, formatFixed3_threeDecimalDigits _, formatFixed3_threeDecimalDigits _,
    formatFixed3_threeDecimalDigits _, formatFixed3_threeDecimalDigits _⟩

/-- C7: `read_package` rejects every code outside `{SWM, RUN, WLK}` with an
error message that enumerates exactly the valid tags and constructs
nothing, and on each registered code it constructs the matching variant
from the positional arguments. -/
theorem read_package_dispatch :
    (∀ workout_type : String, ∀ data : List ℚ,
      workout_type ≠ "SWM" → workout_type ≠ "RUN" → workout_type ≠ "WLK" →
        read_package workout_type data = .error (workout_type ++
          " is not a supported workout type (try one of these: SWM, RUN, WLK)")) ∧
    (∀ a d w lp cp : ℚ, read_package "SWM" [a, d, w, lp, cp] =
      .ok (.swimming ⟨a, d, w⟩ lp cp)) ∧
    (∀ a d w : ℚ, read_package "RUN" [a, d, w] = .ok (.running ⟨a, d, w⟩)) ∧
    (∀ a d w h : ℚ, read_package "WLK" [a, d, w, h] =
      .ok (.sportsWalking ⟨a, d, w⟩ h)) := by
  refine ⟨fun wt data h1 h2 h3 => ?_, fun a d w lp cp => rfl,
    fun a d w => rfl, fun a d w h => rfl⟩
  simp [read_package, h1, h2, h3]

/-- Witness for C7: the unregistered code `"BIKE"` is rejected with the
message listing the three valid tags. -/
theorem read_package_dispatch_witness :
    read_package "BIKE" [1, 1, 1] =
      .error "BIKE is not a supported workout type (try one of these: SWM, RUN, WLK)" :=
  read_package_dispatch.1 "BIKE" [1, 1, 1] (by decide) (by decide) (by decide)

/-- C8: `show_training_info` is pure: a second call returns the same record,
and any record it returns is exactly the recomputation of label, duration,
distance, speed and calories from the unchanged state. -/
theorem show_training_info_idempotent (t : Training) (info : InfoMessage)
    (hinfo : t.show_training_info = .ok info) :
    t.show_training_info = t.show_training_info ∧
    info.training_type = t.className ∧ info.duration = t.duration ∧
    info.distance = t.get_distance ∧ t.get_mean_speed = .ok info.speed ∧
    t.get_spent_calories = .ok info.calories := by
  refine ⟨rfl, ?_⟩
  unfold Training.show_training_info at hinfo
  cases hs : t.get_mean_speed with
  | error e => rw [hs] at hinfo; simp [bind, Except.bind] at hinfo
  | ok s =>
    rw [hs] at hinfo
    cases hc : t.get_spent_calories with
    | error e => rw [hc] at hinfo; simp [bind, Except.bind] at hinfo
    | ok c =>
      rw [hc] at hinfo
      simp only [bind, Except.bind, Except.ok.injEq] at hinfo
      rw [← hinfo]
      exact ⟨rfl, rfl, rfl, rfl, rfl⟩

/-- Witness for C8: the record of `Running (15000, 1, 75)` is reproduced and
decomposes into the recomputed quantities. -/
theorem show_training_info_idempotent_witness :
    Training.show_training_info (.running ⟨15000, 1, 75⟩) =
      Training.show_training_info (.running ⟨15000, 1, 75⟩) ∧
    InfoMessage.training_type ⟨"Running", 1, 9.75, 9.75, 699.75⟩ =
      Training.className (.running ⟨15000, 1, 75⟩) ∧
    InfoMessage.duration ⟨"Running", 1, 9.75, 9.75, 699.75⟩ =
      Training.duration (.running ⟨15000, 1, 75⟩) ∧
    InfoMessage.distance ⟨"Running", 1, 9.75, 9.75, 699.75⟩ =
      Training.get_distance (.running ⟨15000, 1, 75⟩) ∧
    Training.get_mean_speed (.running ⟨15000, 1, 75⟩) =
      .ok (InfoMessage.speed ⟨"Running", 1, 9.75, 9.75, 699.75⟩) ∧
    Training.get_spent_calories (.running ⟨15000, 1, 75⟩) =
      .ok (InfoMessage.calories ⟨"Running", 1, 9.75, 9.75, 699.75⟩) :=
  show_training_info_idempotent (.running ⟨15000, 1, 75⟩)
    ⟨"Running", 1, 9.75, 9.75, 699.75⟩ (by with_unfolding_all rfl)

/-- C9: `get_spent_calories` on a bare base-class instance always fails with
`NotImplementedError`; each of the three concrete variants supplies its own
implementation that, on nondegenerate inputs, returns a value. -/
theorem base_get_spent_calories_not_implemented :
    (∀ a d w : ℚ, Training.get_spent_calories (.base ⟨a, d, w⟩) =
      .error "NotImplementedError") ∧
    (∀ a d w : ℚ, 0 < d →
      ∃ c, Training.get_spent_calories (.running ⟨a, d, w⟩) = .ok c) ∧
    (∀ a d w h : ℚ, 0 < d → 0 < h →
      ∃ c, Training.get_spent_calories (.sportsWalking ⟨a, d, w⟩ h) = .ok c) ∧
    (∀ a d w lp cp : ℚ, 0 < d →
      ∃ c, Training.get_spent_calories (.swimming ⟨a, d, w⟩ lp cp) = .ok c) := by
  refine ⟨fun a d w => rfl,
    fun a d w hd =>
      ⟨((18 * (a * 0.65 / 1000 / d) - 20) * w / 1000) * (d * 60), ?_⟩,
    fun a d w h hd hh =>
      ⟨(0.035 * w + ((⌊(a * 0.65 / 1000 / d) ^ 2 / h⌋ : ℤ) : ℚ) * 0.029 * w)
        * (d * 60), ?_⟩,
    fun a d w lp cp hd => ⟨(lp * cp / 1000 / d + 1.1) * 2 * w, ?_⟩⟩
  · simp [Training.get_spent_calories, Training.get_mean_speed,
      Training.get_distance, Training.action, Training.duration,
      Training.weight, Training.data, Training.lenStep, pyDiv, M_IN_KM,
      MIN_IN_HOUR, hd.ne', bind, Except.bind]
  · simp [Training.get_spent_calories, Training.get_mean_speed,
      Training.get_distance, Training.action, Training.duration,
      Training.weight, Training.data, Training.lenStep, pyDiv, pyFloorDiv,
      M_IN_KM, MIN_IN_HOUR, hd.ne', hh.ne', bind, Except.bind]
  · simp [Training.get_spent_calories, Training.get_mean_speed,
      Training.weight, Training.data, pyDiv, M_IN_KM, hd.ne', bind,
      Except.bind]

/-- Witness for C9: the base failure and the three variant implementations
at the concrete inputs of the example batch. -/
theorem base_get_spent_calories_not_implemented_witness :
    Training.get_spent_calories (.base ⟨15000, 1, 75⟩) =
      .error "NotImplementedError" ∧
    (∃ c, Training.get_spent_calories (.running ⟨15000, 1, 75⟩) = .ok c) ∧
    (∃ c, Training.get_spent_calories (.sportsWalking ⟨9000, 1, 75⟩ 180) =
      .ok c) ∧
    (∃ c, Training.get_spent_calories (.swimming ⟨720, 1, 80⟩ 25 40) = .ok c) :=
  ⟨base_get_spent_calories_not_implemented.1 15000 1 75,
    base_get_spent_calories_not_implemented.2.1 15000 1 75 (by norm_num),
    base_get_spent_calories_not_implemented.2.2.1 9000 1 75 180 (by norm_num)
      (by norm_num),
    base_get_spent_calories_not_implemented.2.2.2 720 1 80 25 40 (by norm_num)⟩

/-- C10: degenerate inputs are not validated: construction with zero
duration (or zero height) succeeds and the `ZeroDivisionError` surfaces
only when `get_mean_speed` or `get_spent_calories` runs; with positive
duration (and positive height for `SportsWalking`) neither computation
hits a division fault. -/
theorem degenerate_inputs_division_fault :
    (∀ a w : ℚ, read_package "RUN" [a, 0, w] = .ok (.running ⟨a, 0, w⟩)) ∧
    (∀ a d w : ℚ, read_package "WLK" [a, d, w, 0] =
      .ok (.sportsWalking ⟨a, d, w⟩ 0)) ∧
    (∀ a w : ℚ, Training.get_mean_speed (.running ⟨a, 0, w⟩) =
      .error "ZeroDivisionError") ∧
    (∀ a w : ℚ, Training.get_spent_calories (.running ⟨a, 0, w⟩) =
      .error "ZeroDivisionError") ∧
    (∀ a d w : ℚ, 0 < d →
      Training.get_spent_calories (.sportsWalking ⟨a, d, w⟩ 0) =
        .error "ZeroDivisionError") ∧
    (∀ a d w : ℚ, 0 < d →
      (∃ s, Training.get_mean_speed (.running ⟨a, d, w⟩) = .ok s) ∧
      (∃ c, Training.get_spent_calories (.running ⟨a, d, w⟩) = .ok c)) ∧
    (∀ a d w h : ℚ, 0 < d → 0 < h →
      (∃ s, Training.get_mean_speed (.sportsWalking ⟨a, d, w⟩ h) = .ok s) ∧
      (∃ c, Training.get_spent_calories (.sportsWalking ⟨a, d, w⟩ h) =
        .ok c)) ∧
    (∀ a d w lp cp : ℚ, 0 < d →
      (∃ s, Training.get_mean_speed (.swimming ⟨a, d, w⟩ lp cp) = .ok s) ∧
      (∃ c, Training.get_spent_calories (.swimming ⟨a, d, w⟩ lp cp) =
        .ok c)) := by
  refine ⟨fun a w => rfl, fun a d w => rfl, ?_, ?_, ?_, ?_, ?_, ?_⟩
  · intro a w
    simp [Training.get_mean_speed, Training.duration, Training.data, pyDiv]
  · intro a w
    simp [Training.get_spent_calories, Training.get_mean_speed,
      Training.duration, Training.data, pyDiv, bind, Except.bind]
  · intro a d w hd
    simp [Training.get_spent_calories, Training.get_mean_speed,
      Training.get_distance, Training.action, Training.duration,
      Training.weight, Training.data, Training.lenStep, pyDiv, pyFloorDiv,
      M_IN_KM, hd.ne', bind, Except.bind]
  · intro a d w hd
    constructor
    · exact ⟨a * 0.65 / 1000 / d, by
        simp [Training.get_mean_speed, Training.get_distance, Training.action,
          Training.duration, Training.data, Training.lenStep, pyDiv, M_IN_KM,
          hd.ne']⟩
    · exact ⟨((18 * (a * 0.65 / 1000 / d) - 20) * w / 1000) * (d * 60), by
        simp [Training.get_spent_calories, Training.get_mean_speed,
          Training.get_distance, Training.action, Training.duration,
          Training.weight, Training.data, Training.lenStep, pyDiv, M_IN_KM,
          MIN_IN_HOUR, hd.ne', bind, Except.bind]⟩
  · intro a d w h hd hh
    constructor
    · exact ⟨a * 0.65 / 1000 / d, by
        simp [Training.get_mean_speed, Training.get_distance, Training.action,
          Training.duration, Training.data, Training.lenStep, pyDiv, M_IN_KM,
          hd.ne']⟩
    · exact ⟨(0.035 * w + ((⌊(a * 0.65 / 1000 / d) ^ 2 / h⌋ : ℤ) : ℚ)
          * 0.029 * w) * (d * 60), by
        simp [Training.get_spent_calories, Training.get_mean_speed,
          Training.get_distance, Training.action, Training.duration,
          Training.weight, Training.data, Training.lenStep, pyDiv, pyFloorDiv,
          M_IN_KM, MIN_IN_HOUR, hd.ne', hh.ne', bind, Except.bind]⟩
  · intro a d w lp cp hd
    constructor
    · exact ⟨lp * cp / 1000 / d, by
        simp [Training.get_mean_speed, Training.data, pyDiv, M_IN_KM, hd.ne']⟩
    · exact ⟨(lp * cp / 1000 / d + 1.1) * 2 * w, by
        simp [Training.get_spent_calories, Training.get_mean_speed,
          Training.weight, Training.data, pyDiv, M_IN_KM, hd.ne', bind,
          Except.bind]⟩

/-- Witness for C10: the degenerate and nondegenerate cases at concrete
inputs: zero duration for running, zero height for walking, and the
example-batch inputs for the fault-free direction. -/
theorem degenerate_inputs_division_fault_witness :
    read_package "RUN" [15000, 0, 75] = .ok (.running ⟨15000, 0, 75⟩) ∧
    read_package "WLK" [9000, 1, 75, 0] = .ok (.sportsWalking ⟨9000, 1, 75⟩ 0) ∧
    Training.get_mean_speed (.running ⟨15000, 0, 75⟩) =
      .error "ZeroDivisionError" ∧
    Training.get_spent_calories (.running ⟨15000, 0, 75⟩) =
      .error "ZeroDivisionError" ∧
    Training.get_spent_calories (.sportsWalking ⟨9000, 1, 75⟩ 0) =
      .error "ZeroDivisionError" ∧
    ((∃ s, Training.get_mean_speed (.running ⟨15000, 1, 75⟩) = .ok s) ∧
      (∃ c, Training.get_spent_calories (.running ⟨15000, 1, 75⟩) = .ok c)) ∧
    ((∃ s, Training.get_mean_speed (.sportsWalking ⟨9000, 1, 75⟩ 180) =
        .ok s) ∧
      (∃ c, Training.get_spent_calories (.sportsWalking ⟨9000, 1, 75⟩ 180) =
        .ok c)) ∧
    ((∃ s, Training.get_mean_speed (.swimming ⟨720, 1, 80⟩ 25 40) = .ok s) ∧
      (∃ c, Training.get_spent_calories (.swimming ⟨720, 1, 80⟩ 25 40) =
        .ok c)) :=
  ⟨degenerate_inputs_division_fault.1 15000 75,
    degenerate_inputs_division_fault.2.1 9000 1 75,
    degenerate_inputs_division_fault.2.2.1 15000 75,
    degenerate_inputs_division_fault.2.2.2.1 15000 75,
    degenerate_inputs_division_fault.2.2.2.2.1 9000 1 75 (by norm_num),
    degenerate_inputs_division_fault.2.2.2.2.2.1 15000 1 75 (by norm_num),
    degenerate_inputs_division_fault.2.2.2.2.2.2.1 9000 1 75 180 (by norm_num)
      (by norm_num),
    degenerate_inputs_division_fault.2.2.2.2.2.2.2 720 1 80 25 40
      (by norm_num)⟩
